import Mathlib

/-!
Verification of the ChibiOS POSIX-simulator low level CAN driver
(os/hal/ports/simulator/posix/hal_can_lld.c / .h).

The driver bridges the ChibiOS CAN controller abstraction onto a Linux
SocketCAN raw socket.  This file gives a shallow embedding of the driver:

* the controller frame structures CANTxFrame / CANRxFrame and the SocketCAN
  wire structure can_frame, with machine integers modelled as Nat and the
  C bitfield / integer-width truncations written as explicit mod operations
  at the points where a C store would truncate;
* the wire-frame construction done inline by can_lld_transmit and the frame
  extraction done inline by can_lld_serve_interrupt_driver;
* the driver operations can_lld_start, can_lld_transmit, can_lld_receive,
  can_lld_is_rx_nonempty, can_lld_serve_interrupt_driver and
  can_lld_serve_interrupt.  Calls into the host OS (socket, ioctl, bind,
  poll, read, write) are modelled by passing their outcomes in explicitly;
  calls into generic ChibiOS services that are not part of the two source
  files (the input_buffers_queue_t operations, canstate_t, the thread
  queues) are modelled from the specification and marked as such.
-/

namespace CanLLD

/-! Constants from linux/can.h used by the driver source. -/

/-- Extended frame format flag, bit 31 of can_id (linux/can.h). -/
def CAN_EFF_FLAG : Nat := 0x80000000

/-- Remote transmission request flag, bit 30 of can_id (linux/can.h). -/
def CAN_RTR_FLAG : Nat := 0x40000000

/-- Error message frame flag, bit 29 of can_id (linux/can.h). -/
def CAN_ERR_FLAG : Nat := 0x20000000

/-- Mask selecting the 29 identifier bits of can_id (linux/can.h). -/
def CAN_EFF_MASK : Nat := 0x1FFFFFFF

/-- Mask selecting the 11 identifier bits of a standard id (linux/can.h). -/
def CAN_SFF_MASK : Nat := 0x7FF

/-! Constants from hal_can_lld.h. -/

/-- Number of transmit mailboxes (hal_can_lld.h line 37). -/
def CAN_TX_MAILBOXES : Nat := 1

/-- Number of receive mailboxes (hal_can_lld.h line 38). -/
def CAN_RX_MAILBOXES : Nat := 1

/-- Depth of the inbound frame queue (hal_can_lld.h line 41, default). -/
def CAN_RX_FIFO_SIZE : Nat := 4

/-- Standard id marker (hal_can_lld.h line 44). -/
def CAN_IDE_STD : Nat := 0

/-- Extended id marker (hal_can_lld.h line 45). -/
def CAN_IDE_EXT : Nat := 1

/-- Data frame marker (hal_can_lld.h line 47). -/
def CAN_RTR_DATA : Nat := 0

/-- Remote frame marker (hal_can_lld.h line 48). -/
def CAN_RTR_REMOTE : Nat := 1

/-- Data (non error) frame marker (hal_can_lld.h line 50). -/
def CAN_ERR_DATA : Nat := 0

/-- Error frame marker (hal_can_lld.h line 51). -/
def CAN_ERR_ERROR : Nat := 1

/-- Controller transmit frame (hal_can_lld.h lines 67-81).  ERR, RTR and IDE
are 1-bit bitfields, CAN_ID is a 29-bit bitfield, DLC is a uint8 and data8
is the 8-byte payload; the widths are enforced by masks at the points where
the driver reads the fields. -/
structure CANTxFrame where
  ERR : Nat
  RTR : Nat
  IDE : Nat
  CAN_ID : Nat
  DLC : Nat
  data8 : Fin 8 → Nat

/-- Controller receive frame (hal_can_lld.h lines 83-97); structurally the
same layout as CANTxFrame. -/
structure CANRxFrame where
  ERR : Nat
  RTR : Nat
  IDE : Nat
  CAN_ID : Nat
  DLC : Nat
  data8 : Fin 8 → Nat

/-- SocketCAN wire frame struct can_frame (linux/can.h): a 32-bit can_id
holding three flag bits and the 29 identifier bits, a length byte and the
8 payload bytes. -/
structure can_frame where
  can_id : Nat
  can_dlc : Nat
  data : Fin 8 → Nat

/-- Size in bytes of struct can_frame on the host (4-byte can_id, 1-byte
can_dlc, 3 bytes padding, 8 data bytes); the quantity the driver compares
the write result against in can_lld_transmit (hal_can_lld.c line 109). -/
def can_frame_size : Int := 16

/-- Wire-frame construction performed inline by can_lld_transmit
(hal_can_lld.c lines 100-107): the three flag bits are OR-ed with the
identifier into can_id, the length is copied, and all 8 payload bytes are
copied regardless of DLC.  Reads of the C bitfields are masked to their
declared widths (1 bit for ERR/RTR/IDE, 29 bits for CAN_ID, 8 bits for
DLC) and the store to the 32-bit can_id is reduced mod 2 ^ 32. -/
def encodeFrame (ctfp : CANTxFrame) : can_frame :=
  { can_id :=
      ((if ctfp.ERR % 2 = CAN_ERR_ERROR then CAN_ERR_FLAG else 0) |||
       (if ctfp.RTR % 2 = CAN_RTR_REMOTE then CAN_RTR_FLAG else 0) |||
       (if ctfp.IDE % 2 = CAN_IDE_EXT then CAN_EFF_FLAG else 0) |||
       (ctfp.CAN_ID % 2 ^ 29)) % 2 ^ 32,
    can_dlc := ctfp.DLC % 2 ^ 8,
    data := ctfp.data8 }

/-- Frame extraction performed inline by can_lld_serve_interrupt_driver
(hal_can_lld.c lines 181-186): the flag bits are tested by masking, the
identifier is masked to its 29-bit region, and length and all 8 payload
bytes are copied through.  The wire fields hold in-range machine values by
construction (they come from the socket or from encodeFrame), so no
further truncation applies. -/
def decodeFrame (frame : can_frame) : CANRxFrame :=
  { IDE := if frame.can_id &&& CAN_EFF_FLAG = CAN_EFF_FLAG then CAN_IDE_EXT else CAN_IDE_STD,
    RTR := if frame.can_id &&& CAN_RTR_FLAG = CAN_RTR_FLAG then CAN_RTR_REMOTE else CAN_RTR_DATA,
    ERR := if frame.can_id &&& CAN_ERR_FLAG = CAN_ERR_FLAG then CAN_ERR_ERROR else CAN_ERR_DATA,
    DLC := frame.can_dlc,
    CAN_ID := frame.can_id &&& CAN_EFF_MASK,
    data8 := frame.data }

/-! Bit-level helper lemmas for the round-trip proof. -/

/-- testBit of a conditionally present flag constant. -/
lemma testBit_ite_flag (P : Prop) [Decidable P] (c i : Nat) :
    (if P then c else 0).testBit i = (decide P && c.testBit i) := by
  by_cases h : P <;> simp [h]

/-- Bits of the error flag constant 2 ^ 29. -/
lemma testBit_flag29 (i : Nat) : Nat.testBit 536870912 i = decide (29 = i) := by
  have h : (536870912 : Nat) = 2 ^ 29 := by norm_num
  rw [h, Nat.testBit_two_pow]

/-- Bits of the remote flag constant 2 ^ 30. -/
lemma testBit_flag30 (i : Nat) : Nat.testBit 1073741824 i = decide (30 = i) := by
  have h : (1073741824 : Nat) = 2 ^ 30 := by norm_num
  rw [h, Nat.testBit_two_pow]

/-- Bits of the extended flag constant 2 ^ 31. -/
lemma testBit_flag31 (i : Nat) : Nat.testBit 2147483648 i = decide (31 = i) := by
  have h : (2147483648 : Nat) = 2 ^ 31 := by norm_num
  rw [h, Nat.testBit_two_pow]

/-- Bits of the 29-bit identifier mask 2 ^ 29 - 1. -/
lemma testBit_mask29 (i : Nat) : Nat.testBit 536870911 i = decide (i < 29) := by
  have h : (536870911 : Nat) = 2 ^ 29 - 1 := by norm_num
  rw [h, Nat.testBit_two_pow_sub_one]

/-- Bits of a value reduced modulo 2 ^ 32. -/
lemma testBit_mod32 (x i : Nat) :
    (x % 4294967296).testBit i = (decide (i < 32) && x.testBit i) := by
  have h : (4294967296 : Nat) = 2 ^ 32 := by norm_num
  rw [h, Nat.testBit_mod_two_pow]

/-- Testing a single flag bit by masking, as done by the decoder. -/
lemma and_two_pow_eq_iff (x k : Nat) : x &&& 2 ^ k = 2 ^ k ↔ x.testBit k = true := by
  constructor
  · intro h
    have h2 := congrArg (fun y => y.testBit k) h
    simpa [Nat.testBit_and, Nat.testBit_two_pow] using h2
  · intro h
    apply Nat.eq_of_testBit_eq
    intro i
    by_cases hik : k = i
    · subst hik
      simp [Nat.testBit_and, Nat.testBit_two_pow, h]
    · simp [Nat.testBit_and, Nat.testBit_two_pow, hik]

/-- Flag bit 29 test in literal form. -/
lemma and_flag29_eq_iff (x : Nat) :
    x &&& 536870912 = 536870912 ↔ x.testBit 29 = true := by
  have h : (536870912 : Nat) = 2 ^ 29 := by norm_num
  rw [h]
  exact and_two_pow_eq_iff x 29

/-- Flag bit 30 test in literal form. -/
lemma and_flag30_eq_iff (x : Nat) :
    x &&& 1073741824 = 1073741824 ↔ x.testBit 30 = true := by
  have h : (1073741824 : Nat) = 2 ^ 30 := by norm_num
  rw [h]
  exact and_two_pow_eq_iff x 30

/-- Flag bit 31 test in literal form. -/
lemma and_flag31_eq_iff (x : Nat) :
    x &&& 2147483648 = 2147483648 ↔ x.testBit 31 = true := by
  have h : (2147483648 : Nat) = 2 ^ 31 := by norm_num
  rw [h]
  exact and_two_pow_eq_iff x 31

/-- Bit analysis of the encoded can_id: the low 29 bits recover the
identifier and each flag bit test recovers the corresponding condition.
The constants are 2 ^ 29 (CAN_ERR_FLAG), 2 ^ 30 (CAN_RTR_FLAG), 2 ^ 31
(CAN_EFF_FLAG) and 2 ^ 29 - 1 (CAN_EFF_MASK). -/
lemma encode_id_bits (P Q R : Prop) [Decidable P] [Decidable Q] [Decidable R]
    (id : Nat) (hid : id < 2 ^ 29) :
    ((((if P then (536870912 : Nat) else 0) ||| (if Q then 1073741824 else 0) |||
       (if R then 2147483648 else 0) ||| id) % 2 ^ 32) &&& 536870911 = id) ∧
    ((((if P then (536870912 : Nat) else 0) ||| (if Q then 1073741824 else 0) |||
       (if R then 2147483648 else 0) ||| id) % 2 ^ 32) &&& 536870912 = 536870912 ↔ P) ∧
    ((((if P then (536870912 : Nat) else 0) ||| (if Q then 1073741824 else 0) |||
       (if R then 2147483648 else 0) ||| id) % 2 ^ 32) &&& 1073741824 = 1073741824 ↔ Q) ∧
    ((((if P then (536870912 : Nat) else 0) ||| (if Q then 1073741824 else 0) |||
       (if R then 2147483648 else 0) ||| id) % 2 ^ 32) &&& 2147483648 = 2147483648 ↔ R) := by
  have hbit : ∀ i, id.testBit i = true → i < 29 := by
    intro i hi
    by_contra hge
    have hle : 2 ^ 29 ≤ 2 ^ i := Nat.pow_le_pow_right (by norm_num) (by omega)
    have : id.testBit i = false := Nat.testBit_lt_two_pow (lt_of_lt_of_le hid hle)
    simp [this] at hi
  refine ⟨?_, ?_, ?_, ?_⟩
  · apply Nat.eq_of_testBit_eq
    intro i
    by_cases h29 : i < 29
    · simp [Nat.testBit_and, Nat.testBit_or, testBit_mod32, testBit_mask29,
            testBit_ite_flag, testBit_flag29, testBit_flag30, testBit_flag31,
            show ¬(29 = i) by omega, show ¬(30 = i) by omega,
            show ¬(31 = i) by omega, show i < 32 by omega, h29]
    · have hidf : id.testBit i = false :=
        Bool.eq_false_iff.mpr (fun h => h29 (hbit i h))
      simp [Nat.testBit_and, testBit_mask29, h29, hidf]
  · rw [and_flag29_eq_iff]
    have hidf : id.testBit 29 = false := Nat.testBit_lt_two_pow hid
    simp [testBit_mod32, Nat.testBit_or, testBit_ite_flag,
          testBit_flag29, testBit_flag30, testBit_flag31, hidf]
  · rw [and_flag30_eq_iff]
    have hidf : id.testBit 30 = false :=
      Nat.testBit_lt_two_pow (lt_of_lt_of_le hid (Nat.pow_le_pow_right (by norm_num) (by omega)))
    simp [testBit_mod32, Nat.testBit_or, testBit_ite_flag,
          testBit_flag29, testBit_flag30, testBit_flag31, hidf]
  · rw [and_flag31_eq_iff]
    have hidf : id.testBit 31 = false :=
      Nat.testBit_lt_two_pow (lt_of_lt_of_le hid (Nat.pow_le_pow_right (by norm_num) (by omega)))
    simp [testBit_mod32, Nat.testBit_or, testBit_ite_flag,
          testBit_flag29, testBit_flag30, testBit_flag31, hidf]

/-- Messages passed to osalSysHalt by the driver; each constructor stands
for the corresponding C string literal in hal_can_lld.c. -/
inductive HaltMsg
  | socketCreatingFailed
  | socketBindingFailed
  | socketCloseFailed
  | socketPollError
  | socketReadError
  | couldntSendCANFrame
deriving DecidableEq

/-- Outcome of a driver call that may halt the process via osalSysHalt. -/
inductive Outcome
  | ok
  | halted (msg : HaltMsg)
deriving DecidableEq

/-- Results returned by the host OS calls made by can_lld_start: the
socket creation result (a descriptor, negative on failure), the
SIOCGIFINDEX ioctl result (negative on failure) and the bind result
(negative on failure). -/
structure StartEnv where
  socketResult : Int
  ioctlResult : Int
  bindResult : Int

/-- Driver start can_lld_start (hal_can_lld.c lines 46-64): the socket
creation result is checked and halts on failure (line 50); the ioctl
interface-index lookup is performed but its result is never inspected
(line 55); the bind result is checked and halts on failure (line 61). -/
def can_lld_start (env : StartEnv) : Outcome :=
  if env.socketResult < 0 then .halted .socketCreatingFailed
  else if env.bindResult < 0 then .halted .socketBindingFailed
  else .ok

/-- Driver transmit can_lld_transmit (hal_can_lld.c lines 93-112): the
frame is encoded and written to the socket exactly once, with no queuing
and no retry.  The writeResult argument is the byte count returned by the
single write call; any result other than the full wire-frame size halts
(line 109).  The first component lists the wire frames the call writes to
the transport. -/
def can_lld_transmit (ctfp : CANTxFrame) (writeResult : Int) :
    List can_frame × Outcome :=
  ([encodeFrame ctfp],
   if writeResult ≠ can_frame_size then Outcome.halted .couldntSendCANFrame
   else .ok)

/-- Modelled from the spec: the Inbound Frame Queue.  The ChibiOS
input_buffers_queue_t operations used by the driver (ibqObjectInit,
ibqGetEmptyBufferI, ibqPostFullBufferI, ibqGetFullBufferTimeoutS,
ibqReleaseEmptyBufferS, ibqIsEmptyI) are not part of the two source
files.  Per the spec the queue is a fixed-capacity FIFO ring of
frame-sized slots with producer-side claim/publish and consumer-side
acquire/release; slots lists the published (Full) frames in FIFO order,
oldest first, and capacity is the configured slot count, which
can_lld_init sets to CAN_RX_FIFO_SIZE. -/
structure input_buffers_queue where
  capacity : Nat
  slots : List CANRxFrame

/-- Modelled from the spec: ibqIsEmptyI is true iff the queue holds no
Full slot. -/
def ibqIsEmptyI (q : input_buffers_queue) : Bool :=
  q.slots.isEmpty

/-- Modelled from the spec: claimEmptySlot (ibqGetEmptyBufferI) yields a
writable slot when a free slot exists in ring order, and yields no slot (a
NULL pointer) when all capacity slots are in use — the case the spec
leaves to an explicitly chosen policy. -/
def ibqGetEmptyBufferI (q : input_buffers_queue) : Option Unit :=
  if q.slots.length < q.capacity then some () else none

/-- Modelled from the spec: publishSlot (ibqPostFullBufferI) marks the
claimed slot Full, making its frame visible to consumers in FIFO order. -/
def ibqPostFullBufferI (q : input_buffers_queue) (f : CANRxFrame) :
    input_buffers_queue :=
  { q with slots := q.slots ++ [f] }

/-- Driver receive can_lld_receive (hal_can_lld.c lines 121-133) acting on
the inbound queue and the caller's output frame: an immediate-timeout
acquire of a Full slot (ibqGetFullBufferTimeoutS with TIME_IMMEDIATE,
modelled from the spec as yielding the oldest Full slot, or timing out at
once when none exists); on success the slot's frame is copied into the
caller's frame and the slot is released back to Empty
(ibqReleaseEmptyBufferS); on timeout the call returns at once leaving the
queue and the caller's frame untouched. -/
def can_lld_receive (q : input_buffers_queue) (crfp : CANRxFrame) :
    input_buffers_queue × CANRxFrame :=
  match q.slots with
  | [] => (q, crfp)
  | f :: rest => ({ q with slots := rest }, f)

/-- Receive-mailbox-nonempty check can_lld_is_rx_nonempty (hal_can_lld.c
lines 114-119): the negation of ibqIsEmptyI on the inbound queue. -/
def can_lld_is_rx_nonempty (q : input_buffers_queue) : Bool :=
  !(ibqIsEmptyI q)

/-- Mailbox assertion of can_lld_is_tx_empty (hal_can_lld.c line 77). -/
def can_lld_is_tx_empty_mbx_ok (mailbox : Nat) : Bool :=
  decide (mailbox ≤ CAN_TX_MAILBOXES)

/-- Mailbox assertion of can_lld_transmit (hal_can_lld.c line 97). -/
def can_lld_transmit_mbx_ok (mailbox : Nat) : Bool :=
  decide (mailbox ≤ CAN_TX_MAILBOXES)

/-- Mailbox assertion of can_lld_abort (hal_can_lld.c line 137). -/
def can_lld_abort_mbx_ok (mailbox : Nat) : Bool :=
  decide (mailbox ≤ CAN_TX_MAILBOXES)

/-- Mailbox assertion of can_lld_is_rx_nonempty (hal_can_lld.c line 116). -/
def can_lld_is_rx_nonempty_mbx_ok (mailbox : Nat) : Bool :=
  decide (mailbox ≤ CAN_RX_MAILBOXES)

/-- Mailbox assertion of can_lld_receive (hal_can_lld.c line 125). -/
def can_lld_receive_mbx_ok (mailbox : Nat) : Bool :=
  decide (mailbox ≤ CAN_RX_MAILBOXES)

/-- Driver state machine values.  Modelled from the spec: the generic
ChibiOS canstate_t is not part of the two source files; the spec's
DriverState is one of Uninitialized, Stopped, Ready. -/
inductive canstate
  | uninit
  | stop
  | ready
deriving DecidableEq

/-- Socket operations the interrupt-service path can perform, recorded as
a trace: the zero-timeout POLLIN poll and the read of one wire frame. -/
inductive SockOp
  | pollIn
  | readOne
deriving DecidableEq

/-- Faults of the embedded code: writing a frame through the pointer
returned by ibqGetEmptyBufferI without a full-queue check dereferences a
NULL pointer when no free slot exists. -/
inductive Fault
  | nullPointerWrite
deriving DecidableEq

/-- Dynamic driver state for the interrupt-service path, mirroring the
CANDriver fields the path touches: state is the spec-modelled canstate;
transport is the sequence of wire frames currently readable from the
socket, oldest first (the zero-timeout POLLIN poll reports readable iff
it is nonempty); rx_input_queue is the inbound frame queue; rx_waiting
counts the threads blocked on the receive threads queue
(chThdDequeueNextI, modelled from the spec as waking one waiting thread
when any exists). -/
structure CANDriver where
  state : canstate
  transport : List can_frame
  rx_input_queue : input_buffers_queue
  rx_waiting : Nat

/-- Interrupt-service step can_lld_serve_interrupt_driver (hal_can_lld.c
lines 156-194): a zero-timeout poll for readability; if not readable,
return false at once doing nothing else.  Otherwise read exactly one wire
frame, decode it into the slot claimed from the inbound queue (the
claimed pointer is written through without a full-queue check — a NULL
dereference when the queue is full), publish the slot, wake one thread
waiting on the receive queue if any, and return true.  The first
component is the trace of socket operations performed.  The fatal
poll-error and read-error paths concern host failures and are not
modelled: the modelled transport polls and reads without error. -/
def can_lld_serve_interrupt_driver (canp : CANDriver) :
    List SockOp × Except Fault (CANDriver × Bool) :=
  match canp.transport with
  | [] => ([.pollIn], .ok (canp, false))
  | frame :: rest =>
    match ibqGetEmptyBufferI canp.rx_input_queue with
    | none => ([.pollIn, .readOne], .error .nullPointerWrite)
    | some _ =>
      ([.pollIn, .readOne],
       .ok ({ canp with
              transport := rest,
              rx_input_queue :=
                ibqPostFullBufferI canp.rx_input_queue (decodeFrame frame),
              rx_waiting := canp.rx_waiting - 1 }, true))

/-- Interrupt-service entry can_lld_serve_interrupt (hal_can_lld.c lines
196-208): the driver step runs only when the driver state is ready;
otherwise nothing is done and false is returned. -/
def can_lld_serve_interrupt (canp : CANDriver) :
    List SockOp × Except Fault (CANDriver × Bool) :=
  if canp.state = canstate.ready then can_lld_serve_interrupt_driver canp
  else ([], .ok (canp, false))

/-- Claim C1: for every valid controller frame (dataLength at most 8 and
identifier within the 11-bit range when IDE is standard, within the 29-bit
range when IDE is extended), encoding via the transmit path's wire-frame
construction and then decoding via the interrupt-service path's frame
extraction reproduces the original frame's error, remote and extended
flags, identifier and length, and preserves all 8 payload bytes, hence in
particular bytes 0 up to dataLength. -/
theorem roundtrip_decode_encode (f : CANTxFrame)
    (hERR : f.ERR < 2) (hRTR : f.RTR < 2) (hIDE : f.IDE < 2)
    (hDLC : f.DLC ≤ 8)
    (hID : if f.IDE = 1 then f.CAN_ID < 2 ^ 29 else f.CAN_ID < 2 ^ 11) :
    (decodeFrame (encodeFrame f)).ERR = f.ERR ∧
    (decodeFrame (encodeFrame f)).RTR = f.RTR ∧
    (decodeFrame (encodeFrame f)).IDE = f.IDE ∧
    (decodeFrame (encodeFrame f)).CAN_ID = f.CAN_ID ∧
    (decodeFrame (encodeFrame f)).DLC = f.DLC ∧
    (decodeFrame (encodeFrame f)).data8 = f.data8 := by
  have hid29 : f.CAN_ID < 2 ^ 29 := by
    by_cases h : f.IDE = 1
    · simpa [h] using hID
    · have h11 : f.CAN_ID < 2 ^ 11 := by simpa [h] using hID
      exact lt_of_lt_of_le h11 (by norm_num)
  have hE : f.ERR % 2 = f.ERR := Nat.mod_eq_of_lt hERR
  have hR : f.RTR % 2 = f.RTR := Nat.mod_eq_of_lt hRTR
  have hX : f.IDE % 2 = f.IDE := Nat.mod_eq_of_lt hIDE
  have hD : f.DLC % 2 ^ 8 = f.DLC := Nat.mod_eq_of_lt (by omega)
  have hmod : f.CAN_ID % 2 ^ 29 = f.CAN_ID := Nat.mod_eq_of_lt hid29
  obtain ⟨hmask, hP, hQ, hRf⟩ :=
    encode_id_bits (f.ERR = 1) (f.RTR = 1) (f.IDE = 1) f.CAN_ID hid29
  simp only [decodeFrame, encodeFrame, CAN_ERR_FLAG, CAN_RTR_FLAG, CAN_EFF_FLAG,
    CAN_EFF_MASK, CAN_ERR_ERROR, CAN_RTR_REMOTE, CAN_IDE_EXT, CAN_IDE_STD,
    CAN_RTR_DATA, CAN_ERR_DATA, hE, hR, hX, hD, hmod]
  refine ⟨?_, ?_, ?_, ?_, ?_, ?_⟩
  · simp only [hP]
    by_cases h : f.ERR = 1
    · simp [h]
    · have h0 : f.ERR = 0 := by omega
      simp [h, h0]
  · simp only [hQ]
    by_cases h : f.RTR = 1
    · simp [h]
    · have h0 : f.RTR = 0 := by omega
      simp [h, h0]
  · simp only [hRf]
    by_cases h : f.IDE = 1
    · simp [h]
    · have h0 : f.IDE = 0 := by omega
      simp [h, h0]
  · exact hmask
  · trivial
  · trivial

/-- Witness for C1 at a concrete extended remote-less error frame with
identifier 300000000 and length 8. -/
theorem roundtrip_decode_encode_witness :
    (decodeFrame (encodeFrame ⟨1, 0, 1, 300000000, 8, fun _ => 7⟩)).ERR = 1 ∧
    (decodeFrame (encodeFrame ⟨1, 0, 1, 300000000, 8, fun _ => 7⟩)).RTR = 0 ∧
    (decodeFrame (encodeFrame ⟨1, 0, 1, 300000000, 8, fun _ => 7⟩)).IDE = 1 ∧
    (decodeFrame (encodeFrame ⟨1, 0, 1, 300000000, 8, fun _ => 7⟩)).CAN_ID = 300000000 ∧
    (decodeFrame (encodeFrame ⟨1, 0, 1, 300000000, 8, fun _ => 7⟩)).DLC = 8 ∧
    (decodeFrame (encodeFrame ⟨1, 0, 1, 300000000, 8, fun _ => 7⟩)).data8 = fun _ => 7 :=
  roundtrip_decode_encode ⟨1, 0, 1, 300000000, 8, fun _ => 7⟩ (by decide) (by decide)
    (by decide) (by decide) (by decide)

/-- Claim C2: at a state whose inbound frame queue already holds
CAN_RX_FIFO_SIZE (4) full slots while the transport is readable, the
interrupt-service step does not stay within the queue's backing storage:
ibqGetEmptyBufferI yields no free slot and the step writes the decoded
frame through the NULL slot pointer, because the code has no full-queue
check.  This theorem evaluates the embedded step at such a state and
shows the out-of-storage write fault. -/
theorem serve_interrupt_driver_full_queue_null_write :
    (can_lld_serve_interrupt_driver
      { state := canstate.ready,
        transport := [⟨291, 4, fun _ => 1⟩],
        rx_input_queue :=
          ⟨CAN_RX_FIFO_SIZE,
           [⟨0, 0, 0, 0, 0, fun _ => 0⟩, ⟨0, 0, 0, 0, 0, fun _ => 0⟩,
            ⟨0, 0, 0, 0, 0, fun _ => 0⟩, ⟨0, 0, 0, 0, 0, fun _ => 0⟩]⟩,
        rx_waiting := 0 }).2 = Except.error Fault.nullPointerWrite := by
  rfl

/-- Claim C3, counterexample to the claim as stated: an invocation of the
interrupt-service entry in the Ready state with a readable transport need
not publish a frame and return true — with the inbound queue full it
writes through the NULL slot pointer instead, so no ok result with true
exists. -/
theorem serve_interrupt_ready_readable_no_publish_cex :
    ¬ (∀ canp : CANDriver, canp.state = canstate.ready →
        canp.transport ≠ [] →
        ∃ canp' : CANDriver,
          (can_lld_serve_interrupt canp).2 = Except.ok (canp', true)) := by
  intro h
  rcases h { state := canstate.ready,
             transport := [⟨291, 4, fun _ => 1⟩],
             rx_input_queue :=
               ⟨CAN_RX_FIFO_SIZE,
                [⟨0, 0, 0, 0, 0, fun _ => 0⟩, ⟨0, 0, 0, 0, 0, fun _ => 0⟩,
                 ⟨0, 0, 0, 0, 0, fun _ => 0⟩, ⟨0, 0, 0, 0, 0, fun _ => 0⟩]⟩,
             rx_waiting := 0 } rfl (by simp) with ⟨c, hc⟩
  simp [can_lld_serve_interrupt, can_lld_serve_interrupt_driver,
        ibqGetEmptyBufferI, CAN_RX_FIFO_SIZE] at hc

/-- Claim C3 as amended: for every invocation of the interrupt-service
entry in the Ready state, if the transport is not readable the call
returns false immediately after the single poll, leaving the whole driver
state (in particular the inbound queue) unchanged; otherwise, provided
the inbound queue has a free slot, the call performs exactly one poll and
exactly one read of one wire frame, decodes it, publishes it into the
inbound queue, wakes one thread waiting on the receive queue if any, and
returns true — never looping to drain the transport. -/
theorem serve_interrupt_ready_step (canp : CANDriver)
    (hready : canp.state = canstate.ready) :
    (canp.transport = [] →
      can_lld_serve_interrupt canp = ([SockOp.pollIn], Except.ok (canp, false))) ∧
    (∀ frame rest, canp.transport = frame :: rest →
      canp.rx_input_queue.slots.length < canp.rx_input_queue.capacity →
      can_lld_serve_interrupt canp =
        ([SockOp.pollIn, SockOp.readOne],
         Except.ok ({ canp with
                      transport := rest,
                      rx_input_queue :=
                        ibqPostFullBufferI canp.rx_input_queue (decodeFrame frame),
                      rx_waiting := canp.rx_waiting - 1 }, true))) := by
  constructor
  · intro h
    simp [can_lld_serve_interrupt, hready, can_lld_serve_interrupt_driver, h]
  · intro frame rest htr hfree
    simp [can_lld_serve_interrupt, hready, can_lld_serve_interrupt_driver, htr,
          ibqGetEmptyBufferI, hfree]

/-- Witness for C3 at two concrete Ready states: one with an unreadable
transport and one with a readable transport and a free slot. -/
theorem serve_interrupt_ready_step_witness :
    can_lld_serve_interrupt ⟨canstate.ready, [], ⟨4, []⟩, 0⟩ =
      ([SockOp.pollIn], Except.ok (⟨canstate.ready, [], ⟨4, []⟩, 0⟩, false)) ∧
    can_lld_serve_interrupt ⟨canstate.ready, [⟨291, 4, fun _ => 1⟩], ⟨4, []⟩, 1⟩ =
      ([SockOp.pollIn, SockOp.readOne],
       Except.ok (⟨canstate.ready, [],
                   ibqPostFullBufferI ⟨4, []⟩ (decodeFrame ⟨291, 4, fun _ => 1⟩),
                   0⟩, true)) :=
  ⟨(serve_interrupt_ready_step ⟨canstate.ready, [], ⟨4, []⟩, 0⟩ rfl).1 rfl,
   (serve_interrupt_ready_step ⟨canstate.ready, [⟨291, 4, fun _ => 1⟩], ⟨4, []⟩, 1⟩
      rfl).2 ⟨291, 4, fun _ => 1⟩ [] rfl (by decide)⟩

/-- Claim C4: a receive call with at least one full slot in the inbound
queue copies the oldest full slot's frame into the caller's output frame
and releases the slot back to empty; a receive call on an empty inbound
queue returns at once — the immediate-timeout acquire fails without
blocking — leaving the queue and the caller's frame unchanged, which is
the no-data (NoneAvailable) outcome. -/
theorem can_lld_receive_spec (q : input_buffers_queue) (crfp : CANRxFrame) :
    (q.slots = [] → can_lld_receive q crfp = (q, crfp)) ∧
    (∀ f rest, q.slots = f :: rest →
      can_lld_receive q crfp = ({ q with slots := rest }, f)) := by
  constructor
  · intro h
    simp [can_lld_receive, h]
  · intro f rest h
    simp [can_lld_receive, h]

/-- Witness for C4: a receive from a queue holding one frame delivers it
and empties the queue; a receive from an empty queue changes nothing. -/
theorem can_lld_receive_spec_witness :
    can_lld_receive ⟨4, []⟩ ⟨0, 0, 0, 0, 0, fun _ => 0⟩ =
      (⟨4, []⟩, ⟨0, 0, 0, 0, 0, fun _ => 0⟩) ∧
    can_lld_receive ⟨4, [⟨0, 0, 0, 123, 4, fun _ => 2⟩]⟩ ⟨0, 0, 0, 0, 0, fun _ => 0⟩ =
      (⟨4, []⟩, ⟨0, 0, 0, 123, 4, fun _ => 2⟩) :=
  ⟨(can_lld_receive_spec ⟨4, []⟩ ⟨0, 0, 0, 0, 0, fun _ => 0⟩).1 rfl,
   (can_lld_receive_spec ⟨4, [⟨0, 0, 0, 123, 4, fun _ => 2⟩]⟩
      ⟨0, 0, 0, 0, 0, fun _ => 0⟩).2 ⟨0, 0, 0, 123, 4, fun _ => 2⟩ [] rfl⟩

/-- Claim C5, counterexample to the claim as stated: an interface index
lookup (ioctl) failure is not detected by can_lld_start — with a
successful socket creation and bind, a negative ioctl result still leads
to a normal (non-halting) return, because the ioctl return value is never
inspected. -/
theorem can_lld_start_ioctl_unchecked_cex :
    ¬ (∀ env : StartEnv, env.ioctlResult < 0 →
        ∃ msg : HaltMsg, can_lld_start env = Outcome.halted msg) := by
  intro h
  rcases h ⟨3, -1, 0⟩ (by norm_num) with ⟨msg, hmsg⟩
  simp [can_lld_start] at hmsg

/-- Claim C5 as amended: of the three failure points of start/open, socket
creation failure and bind failure are detected and halt the process with
their descriptive messages, while an interface index lookup (ioctl)
failure is not checked; when socket creation and bind succeed the start
returns without halting regardless of the ioctl result. -/
theorem can_lld_start_halt_spec (env : StartEnv) :
    (env.socketResult < 0 →
      can_lld_start env = Outcome.halted HaltMsg.socketCreatingFailed) ∧
    (0 ≤ env.socketResult → env.bindResult < 0 →
      can_lld_start env = Outcome.halted HaltMsg.socketBindingFailed) ∧
    (0 ≤ env.socketResult → 0 ≤ env.bindResult →
      can_lld_start env = Outcome.ok) := by
  refine ⟨?_, ?_, ?_⟩
  · intro h
    simp [can_lld_start, h]
  · intro hs hb
    simp [can_lld_start, hb, show ¬ env.socketResult < 0 by omega]
  · intro hs hb
    simp [can_lld_start, show ¬ env.socketResult < 0 by omega,
          show ¬ env.bindResult < 0 by omega]

/-- Witness for C5 at concrete host outcomes: socket creation failure
halts, bind failure halts, and full success returns ok. -/
theorem can_lld_start_halt_spec_witness :
    can_lld_start ⟨-1, 0, 0⟩ = Outcome.halted HaltMsg.socketCreatingFailed ∧
    can_lld_start ⟨3, 0, -1⟩ = Outcome.halted HaltMsg.socketBindingFailed ∧
    can_lld_start ⟨3, 0, 0⟩ = Outcome.ok :=
  ⟨(can_lld_start_halt_spec ⟨-1, 0, 0⟩).1 (by norm_num),
   (can_lld_start_halt_spec ⟨3, 0, -1⟩).2.1 (by norm_num) (by norm_num),
   (can_lld_start_halt_spec ⟨3, 0, 0⟩).2.2 (by norm_num) (by norm_num)⟩

/-- Claim C6: every transmit call encodes the frame and performs exactly
one transport write of one full wire frame — the write trace is the
single encoded frame, whose payload copies all 8 bytes of the caller's
frame regardless of DLC — with no queuing or retry; the call returns
normally exactly when the write transfers the full wire-frame size and
halts exactly otherwise (in particular on any short write). -/
theorem can_lld_transmit_spec (ctfp : CANTxFrame) (writeResult : Int) :
    (can_lld_transmit ctfp writeResult).1 = [encodeFrame ctfp] ∧
    (encodeFrame ctfp).data = ctfp.data8 ∧
    ((can_lld_transmit ctfp writeResult).2 = Outcome.ok ↔
      writeResult = can_frame_size) ∧
    ((can_lld_transmit ctfp writeResult).2 =
        Outcome.halted HaltMsg.couldntSendCANFrame ↔
      writeResult ≠ can_frame_size) := by
  refine ⟨rfl, rfl, ?_, ?_⟩ <;>
    by_cases h : writeResult = can_frame_size <;>
      simp [can_lld_transmit, h]

/-- Claim C7: the receive-mailbox-nonempty check returns true exactly when
the inbound frame queue holds at least one full slot. -/
theorem can_lld_is_rx_nonempty_iff (q : input_buffers_queue) :
    can_lld_is_rx_nonempty q = true ↔ q.slots ≠ [] := by
  obtain ⟨cap, slots⟩ := q
  cases slots <;> simp [can_lld_is_rx_nonempty, ibqIsEmptyI]

/-- Claim C8: each of the five mailbox-indexed operations (transmit-empty
check, transmit, abort, receive-nonempty check, receive) passes its
mailbox assertion exactly for indices 0 (the any-mailbox designator) and
1 (the single configured mailbox, CAN_TX_MAILBOXES = CAN_RX_MAILBOXES =
1); every larger index fails the assertion. -/
theorem mailbox_checks_spec (mailbox : Nat) :
    (can_lld_is_tx_empty_mbx_ok mailbox = true ↔ mailbox = 0 ∨ mailbox = 1) ∧
    (can_lld_transmit_mbx_ok mailbox = true ↔ mailbox = 0 ∨ mailbox = 1) ∧
    (can_lld_abort_mbx_ok mailbox = true ↔ mailbox = 0 ∨ mailbox = 1) ∧
    (can_lld_is_rx_nonempty_mbx_ok mailbox = true ↔ mailbox = 0 ∨ mailbox = 1) ∧
    (can_lld_receive_mbx_ok mailbox = true ↔ mailbox = 0 ∨ mailbox = 1) := by
  refine ⟨?_, ?_, ?_, ?_, ?_⟩ <;>
    simp [can_lld_is_tx_empty_mbx_ok, can_lld_transmit_mbx_ok,
          can_lld_abort_mbx_ok, can_lld_is_rx_nonempty_mbx_ok,
          can_lld_receive_mbx_ok, CAN_TX_MAILBOXES, CAN_RX_MAILBOXES] <;>
    omega

/-- Claim C9: in every driver state other than Ready, the interrupt
service entry performs no socket operation (its socket trace is empty,
so neither a poll nor a read happens), changes nothing (in particular no
queue operation happens), and returns false. -/
theorem serve_interrupt_not_ready_noop (canp : CANDriver)
    (h : canp.state ≠ canstate.ready) :
    can_lld_serve_interrupt canp = ([], Except.ok (canp, false)) := by
  simp [can_lld_serve_interrupt, h]

/-- Witness for C9 at a concrete stopped driver with a readable
transport: nothing happens and false is returned. -/
theorem serve_interrupt_not_ready_noop_witness :
    can_lld_serve_interrupt ⟨canstate.stop, [⟨291, 4, fun _ => 1⟩], ⟨4, []⟩, 0⟩ =
      ([], Except.ok (⟨canstate.stop, [⟨291, 4, fun _ => 1⟩], ⟨4, []⟩, 0⟩, false)) :=
  serve_interrupt_not_ready_noop ⟨canstate.stop, [⟨291, 4, fun _ => 1⟩], ⟨4, []⟩, 0⟩
    (by decide)

/-- Claim C10: a receive call on an empty inbound queue leaves the
caller-supplied output frame (and the queue) completely unchanged — the
immediate-timeout acquire fails before any write to the output frame —
and the separate receive-mailbox-nonempty check reports false at such a
state, being the caller's way to detect that no data arrived. -/
theorem can_lld_receive_empty_frame_unchanged (q : input_buffers_queue)
    (crfp : CANRxFrame) (h : q.slots = []) :
    can_lld_receive q crfp = (q, crfp) ∧ can_lld_is_rx_nonempty q = false := by
  constructor
  · simp [can_lld_receive, h]
  · simp [can_lld_is_rx_nonempty, ibqIsEmptyI, h]

/-- Witness for C10 at a concrete empty queue and a concrete caller
frame. -/
theorem can_lld_receive_empty_frame_unchanged_witness :
    can_lld_receive ⟨2, []⟩ ⟨0, 0, 0, 7, 1, fun _ => 5⟩ =
      (⟨2, []⟩, ⟨0, 0, 0, 7, 1, fun _ => 5⟩) ∧
    can_lld_is_rx_nonempty ⟨2, []⟩ = false :=
  can_lld_receive_empty_frame_unchanged ⟨2, []⟩ ⟨0, 0, 0, 7, 1, fun _ => 5⟩ rfl

end CanLLD
